import Mathlib

/-!
Verification development for the Acuvia symptom-triage system.

The repository ships a React frontend (Home/Assessment form, Results page)
and documents a FastAPI backend pipeline (symptom extraction, classifier,
risk scoring, critical override, explanation).  The frontend components are
embedded directly from the JSX sources; the backend pipeline, whose Python
source is not part of the tree examined here, is modelled from the
specification document, with each such definition marked
`Modelled from the spec:` in its doc comment.
-/

namespace Acuvia

/-! ### Frontend: Results.jsx -/

/-- Embeds the per-level entries of `LEVEL_CONFIG` in Results.jsx
(color, background, border, label; the SVG icon is omitted as pure markup). -/
structure LevelConfig where
  color : String
  bg : String
  border : String
  label : String
deriving Repr, DecidableEq

/-- The `Low` entry of `LEVEL_CONFIG` in Results.jsx. -/
def LEVEL_CONFIG_Low : LevelConfig :=
  { color := "#16a34a", bg := "#f0fdf4", border := "#bbf7d0", label := "Low Risk" }

/-- The `Moderate` entry of `LEVEL_CONFIG` in Results.jsx. -/
def LEVEL_CONFIG_Moderate : LevelConfig :=
  { color := "#ca8a04", bg := "#fefce8", border := "#fde68a", label := "Moderate Risk" }

/-- The `High` entry of `LEVEL_CONFIG` in Results.jsx. -/
def LEVEL_CONFIG_High : LevelConfig :=
  { color := "#dc2626", bg := "#fef2f2", border := "#fecaca", label := "High Risk" }

/-- The property names every plain JavaScript object literal inherits from
Object.prototype; bracket access on the `LEVEL_CONFIG` literal yields a
truthy function (or, for the last entry, the prototype object itself) for
these even though they are not own keys of the literal. -/
def OBJECT_PROTOTYPE_KEYS : List String :=
  ["constructor", "hasOwnProperty", "isPrototypeOf", "propertyIsEnumerable",
   "toLocaleString", "toString", "valueOf", "__defineGetter__",
   "__defineSetter__", "__lookupGetter__", "__lookupSetter__", "__proto__"]

/-- The value of the JavaScript bracket access `LEVEL_CONFIG[key]`: one of
the literal's own level-config entries, a truthy member inherited from
Object.prototype, or undefined. -/
inductive JsLookup
  | ownConfig (c : LevelConfig)
  | inherited
  | jsUndefined
deriving Repr, DecidableEq

/-- Embeds the bracket access `LEVEL_CONFIG[result.risk_level]` of
Results.jsx line 54 with JavaScript property-lookup semantics: the literal's
own keys first, then the Object.prototype chain, then undefined. -/
def levelConfigAccess (key : String) : JsLookup :=
  if key = "Low" then .ownConfig LEVEL_CONFIG_Low
  else if key = "Moderate" then .ownConfig LEVEL_CONFIG_Moderate
  else if key = "High" then .ownConfig LEVEL_CONFIG_High
  else if key ∈ OBJECT_PROTOTYPE_KEYS then .inherited
  else .jsUndefined

/-- Embeds line 54 of Results.jsx,
`const config = LEVEL_CONFIG[result.risk_level] || LEVEL_CONFIG.Moderate;`:
the `||` falls through to the Moderate entry exactly when the left operand is
falsy, and the only falsy value the lookup can produce is undefined — an
inherited prototype member is truthy and is kept as `config`. -/
def resultsConfig (risk_level : String) : JsLookup :=
  match levelConfigAccess risk_level with
  | .jsUndefined => .ownConfig LEVEL_CONFIG_Moderate
  | v => v

/-- Embeds the expression `config.label` rendered by the Results page: a
string when `config` is one of the level-config objects, undefined (none)
when it is a member inherited from Object.prototype, which has no `label`
property. -/
def configLabel : JsLookup → Option String
  | .ownConfig c => some c.label
  | _ => none

/-! ### Frontend: Assessment form (Home.jsx file, `Assessment` component) -/

/-- Embeds `toggleComorbidity` from the Assessment component:
`prev.includes(item) ? prev.filter((c) => c !== item) : [...prev, item]`. -/
def toggleComorbidity (item : String) (prev : List String) : List String :=
  if item ∈ prev then prev.filter (fun c => c ≠ item) else prev ++ [item]

/-- True when the string is empty or entirely whitespace; this is exactly the
condition under which the JavaScript test `!s.trim()` succeeds. -/
def isBlankStr (s : String) : Bool := s.data.all (fun c => c.isWhitespace)

/-- Embeds the guard at the top of `handleSubmit` in the Assessment component:
`if (!age || !gender || !symptoms.trim())` rejects the form.  The age and
gender states are strings from the controlled inputs, falsy exactly when
empty; the result is `true` when the form is allowed to be submitted. -/
def jsGate (age gender symptoms : String) : Bool :=
  !(age == "" || gender == "" || isBlankStr symptoms)

/-! ### Core pipeline, modelled from the specification -/

/-- Modelled from the spec: normalization maps a character to lowercase and
replaces non-alphanumeric characters (punctuation, whitespace) by a space,
giving the punctuation-insensitive lowercase matching of section 4.1. -/
def normChar (c : Char) : Char := if c.isAlphanum then c.toLower else ' '

/-- Modelled from the spec: collapse runs of adjacent spaces to one space. -/
def dedupSp : List Char → List Char
  | [] => []
  | [c] => [c]
  | a :: b :: rest =>
    if a = ' ' && b = ' ' then dedupSp (b :: rest) else a :: dedupSp (b :: rest)

/-- Modelled from the spec: drop leading and trailing spaces. -/
def trimSp (l : List Char) : List Char :=
  ((l.dropWhile (fun c => c = ' ')).reverse.dropWhile (fun c => c = ' ')).reverse

/-- Modelled from the spec: the Symptom Extractor's normalized lowercase,
whitespace-collapsed, punctuation-insensitive form of the raw text. -/
def normalize (s : String) : String :=
  String.mk (trimSp (dedupSp (s.data.map normChar)))

/-- Boolean test that the first list occurs at the head of the second. -/
def listStartsWith : List Char → List Char → Bool
  | [], _ => true
  | _ :: _, [] => false
  | a :: as, b :: bs => a = b && listStartsWith as bs

/-- Boolean test that the first list occurs contiguously inside the second. -/
def containsSub : List Char → List Char → Bool
  | needle, [] => needle.isEmpty
  | needle, c :: rest => listStartsWith needle (c :: rest) || containsSub needle rest

/-- Modelled from the spec: the fixed reference vocabulary of canonical
symptom tags with their accepted surface forms (section 4.1 names
chest pain, sweating, breathlessness, unconsciousness, plus a broader list
of common symptoms; both the surface `unconscious` and
`loss of consciousness` map to the canonical `unconsciousness` tag). -/
def SYMPTOM_VOCAB : List (String × List String) :=
  [("chest pain", ["chest pain"]),
   ("sweating", ["sweating", "diaphoresis"]),
   ("severe breathlessness", ["severe breathlessness"]),
   ("breathlessness", ["breathlessness", "shortness of breath", "difficulty breathing"]),
   ("unconsciousness", ["unconsciousness", "unconscious", "loss of consciousness"]),
   ("headache", ["headache"]),
   ("fever", ["fever"]),
   ("cough", ["cough"]),
   ("dizziness", ["dizziness", "dizzy"]),
   ("nausea", ["nausea"]),
   ("runny nose", ["runny nose"])]

/-- A canonical tag is detected when any of its surface forms occurs in the
normalized text. -/
def detects (normText : List Char) (forms : List String) : Bool :=
  forms.any (fun f => containsSub f.data normText)

/-- Modelled from the spec: the Symptom Extractor; boolean
substring/keyword membership test per canonical tag against the normalized
text, returning the detected tags in fixed vocabulary order. -/
def extractSymptoms (s : String) : List String :=
  (SYMPTOM_VOCAB.filter (fun pr => detects (normalize s).data pr.2)).map Prod.fst

/-- The three discrete risk levels. -/
inductive RiskLevel
  | low
  | moderate
  | high
deriving Repr, DecidableEq

/-- Rank of a level used to state that overrides never downgrade. -/
def levelRank : RiskLevel → Nat
  | .low => 0
  | .moderate => 1
  | .high => 2

/-- Modelled from the spec: age factor of the Risk Scorer (section 4.3). -/
def ageFactor (age : Int) : ℚ :=
  if 60 < age then 2 else if 40 ≤ age then 1 else 0

/-- Modelled from the spec: one point per distinct comorbidity, no cap. -/
def comorbidityFactor (com : List String) : ℚ := (com.dedup).length

/-- Modelled from the spec: the exact scoring formula
`risk_score = probability*5 + age_factor + comorbidity_factor`. -/
def riskScore (p : ℚ) (age : Int) (com : List String) : ℚ :=
  p * 5 + ageFactor age + comorbidityFactor com

/-- Modelled from the spec: the documented example thresholds, consistent
with all stated scenarios (score < 3 is Low, 3 ≤ score < 6 is Moderate,
score ≥ 6 is High). -/
def scoreLevel (s : ℚ) : RiskLevel :=
  if s < 3 then .low else if s < 6 then .moderate else .high

/-- Modelled from the spec: the Critical Override Engine's rule list over the
detected-symptom set: chest pain AND sweating; OR severe breathlessness; OR
unconsciousness (covering the loss-of-consciousness surface form). -/
def criticalRule (d : List String) : Bool :=
  (d.contains ("chest pain") && d.contains ("sweating")) ||
  d.contains ("severe breathlessness") ||
  d.contains ("unconsciousness")

/-- Modelled from the spec: if any critical rule fires the level is forced to
High, otherwise the base level stands. -/
def applyOverride (crit : Bool) (base : RiskLevel) : RiskLevel :=
  if crit then .high else base

/-- Display name of a risk level. -/
def levelName : RiskLevel → String
  | .low => "Low"
  | .moderate => "Moderate"
  | .high => "High"

/-- Modelled from the spec: fixed recommended-action lookup keyed off the
risk level. -/
def recommendedAction : RiskLevel → String
  | .high => "Seek immediate emergency care."
  | .moderate => "See a clinician promptly."
  | .low => "Monitor symptoms and follow self-care guidance."

/-- Comma-separated rendering of the detected symptom list. -/
def joinComma : List String → String
  | [] => ""
  | [s] => s
  | s :: rest => s ++ ", " ++ joinComma rest

/-- Modelled from the spec: the Explanation Generator; deterministic text
templated from the detected symptoms, the level, and the override flag. -/
def explanationText (d : List String) (lvl : RiskLevel) (ov : Bool) : String :=
  "Detected symptoms: " ++ joinComma d ++ ". The computed score maps to the " ++
  levelName lvl ++ " level." ++
  (if ov then
    " A critical symptom pattern triggered automatic escalation, overriding the model-derived classification."
  else "")

/-- The pipeline's output record (spec section 3, RiskAssessment). -/
structure RiskAssessment where
  risk_score : ℚ
  risk_level : RiskLevel
  detected_symptoms : List String
  explanation : String
  recommended_action : String
  override_applied : Bool
deriving Repr, DecidableEq

/-- Modelled from the spec: the core assessment given an already-obtained
classifier probability: extraction, scoring, base level, critical override,
explanation — in the strict order of section 4.6. -/
def assess (p : ℚ) (age : Int) (com : List String) (text : String) : RiskAssessment :=
  let d := extractSymptoms text
  let score := riskScore p age com
  let base := scoreLevel score
  let crit := criticalRule d
  let lvl := applyOverride crit base
  { risk_score := score
    risk_level := lvl
    detected_symptoms := d
    explanation := explanationText d lvl crit
    recommended_action := recommendedAction lvl
    override_applied := crit }

/-- The structured request of spec section 3 (age may be absent in a raw
request; comorbidities arrive lower-cased from the frontend). -/
structure AssessmentRequest where
  age : Option Int
  gender : String
  comorbidities : List String
  symptom_text : String
deriving Repr, DecidableEq

/-- The enumerated gender set offered by the Assessment form. -/
def GENDERS : List String := ["male", "female", "other"]

/-- Modelled from the spec: request validation (sections 3, 6 and 4.1): age
present and in [0,120], gender in the enumerated set, symptom_text neither
empty nor whitespace-only (whitespace-only text is rejected upstream of the
extractor, matching the frontend's trimmed check). -/
def validate (r : AssessmentRequest) : Bool :=
  match r.age with
  | none => false
  | some a =>
    decide (0 ≤ a) && decide (a ≤ 120) && decide (r.gender ∈ GENDERS) &&
    !(isBlankStr r.symptom_text)

/-- One audit-log record per completed assessment (spec section 6). -/
structure LogRecord where
  request : AssessmentRequest
  result : RiskAssessment
deriving Repr, DecidableEq

/-- The error kinds of spec section 7 that the orchestrator can surface. -/
inductive AssessError
  | validationError
  | classifierUnavailable
deriving Repr, DecidableEq

/-- Modelled from the spec: invoke the classifier capability on the
normalized text and, only on success, build the assessment; an unavailable
classifier fails the whole pipeline with no default probability. -/
def runPipeline (classifier : String → Option ℚ) (r : AssessmentRequest) :
    Option RiskAssessment :=
  match classifier (normalize r.symptom_text) with
  | none => none
  | some p => some (assess p (r.age.getD 0) r.comorbidities r.symptom_text)

/-- Modelled from the spec: the Assessment Orchestrator; validates first and
returns a validation error without invoking the pipeline or logging,
otherwise runs the pipeline atomically, logging one record per completed
request and none for a failed one. -/
def handleRequest (classifier : String → Option ℚ) (r : AssessmentRequest) :
    Except AssessError RiskAssessment × List LogRecord :=
  if validate r then
    match runPipeline classifier r with
    | none => (Except.error AssessError.classifierUnavailable, [])
    | some a => (Except.ok a, [{ request := r, result := a }])
  else (Except.error AssessError.validationError, [])

/-! ### Helper lemmas -/

/-- Normalization sends every whitespace character to a space. -/
theorem normChar_of_ws {c : Char} (h : c.isWhitespace = true) : normChar c = ' ' := by
  simp [Char.isWhitespace] at h
  rcases h with ((h | h) | h) | h <;> subst h <;> decide

/-- Collapsing spaces introduces no new characters. -/
theorem dedupSp_mem {l : List Char} {x : Char} (hx : x ∈ dedupSp l) : x ∈ l := by
  induction l with
  | nil => simp [dedupSp] at hx
  | cons a rest ih =>
    cases rest with
    | nil => simpa [dedupSp] using hx
    | cons b rest2 =>
      rw [dedupSp] at hx
      by_cases hab : (a = ' ' && b = ' ') = true
      · rw [if_pos hab] at hx
        exact List.mem_cons_of_mem a (ih hx)
      · rw [if_neg hab] at hx
        rcases List.mem_cons.mp hx with h | h
        · exact h ▸ List.mem_cons_self a _
        · exact List.mem_cons_of_mem a (ih h)

/-- Trimming a list made only of spaces leaves nothing. -/
theorem trimSp_all_sp {l : List Char} (h : ∀ x ∈ l, x = ' ') : trimSp l = [] := by
  unfold trimSp
  have h1 : l.dropWhile (fun c => c = ' ') = [] := by
    rw [List.dropWhile_eq_nil_iff]
    intro x hx
    simp [h x hx]
  rw [h1]
  rfl

/-- The head-occurrence test agrees with the existence of a list remainder. -/
theorem listStartsWith_iff (n h : List Char) :
    listStartsWith n h = true ↔ ∃ r, h = n ++ r := by
  induction n generalizing h with
  | nil => simp [listStartsWith]
  | cons a as ih =>
    cases h with
    | nil => simp [listStartsWith]
    | cons b bs =>
      simp only [listStartsWith, Bool.and_eq_true, decide_eq_true_eq, ih,
        List.cons_append, List.cons.injEq]
      constructor
      · rintro ⟨hab, r, hr⟩
        exact ⟨r, hab.symm, hr⟩
      · rintro ⟨r, hba, hr⟩
        exact ⟨hba.symm, r, hr⟩

/-- The contiguous-occurrence test agrees with the existence of a
decomposition of the searched list around the needle. -/
theorem containsSub_iff (n h : List Char) :
    containsSub n h = true ↔ ∃ l r, h = l ++ n ++ r := by
  induction h with
  | nil =>
    simp only [containsSub, List.isEmpty_iff]
    constructor
    · rintro rfl
      exact ⟨[], [], rfl⟩
    · rintro ⟨l, r, hl⟩
      rcases List.append_eq_nil.mp (List.append_eq_nil.mp hl.symm).1 with ⟨-, hn⟩
      exact hn
  | cons c rest ih =>
    simp only [containsSub, Bool.or_eq_true, listStartsWith_iff, ih]
    constructor
    · rintro (⟨r, hr⟩ | ⟨l, r, hr⟩)
      · exact ⟨[], r, by simpa using hr⟩
      · exact ⟨c :: l, r, by simp [hr]⟩
    · rintro ⟨l, r, hr⟩
      cases l with
      | nil =>
        left
        exact ⟨r, by simpa using hr⟩
      | cons x xs =>
        right
        simp only [List.cons_append, List.cons.injEq] at hr
        exact ⟨xs, r, hr.2⟩

/-! ### Claim theorems -/

/-- C7: the extractor detects a canonical tag if and only if one of its
accepted surface forms occurs contiguously in the normalized (lowercased,
whitespace-collapsed, punctuation-insensitive) text — a boolean membership
test per tag — and empty or whitespace-only text yields an empty
detected-symptom set. -/
theorem extraction_characterization (t : String) :
    (∀ tag, tag ∈ extractSymptoms t ↔
      ∃ pr ∈ SYMPTOM_VOCAB, pr.1 = tag ∧
        ∃ f ∈ pr.2, ∃ l r, (normalize t).data = l ++ f.data ++ r) ∧
    ((∀ ch ∈ t.data, ch.isWhitespace = true) → extractSymptoms t = []) := by
  constructor
  · intro tag
    simp only [extractSymptoms, List.mem_map, List.mem_filter, detects,
      List.any_eq_true, containsSub_iff]
    constructor
    · rintro ⟨pr, ⟨hpr, hf⟩, rfl⟩
      exact ⟨pr, hpr, rfl, hf⟩
    · rintro ⟨pr, hpr, rfl, hf⟩
      exact ⟨pr, ⟨hpr, hf⟩, rfl⟩
  · intro hws
    have hn : (normalize t).data = [] := by
      show trimSp (dedupSp (t.data.map normChar)) = []
      apply trimSp_all_sp
      intro x hx
      rcases List.mem_map.mp (dedupSp_mem hx) with ⟨c, hc, hcx⟩
      rw [← hcx]
      exact normChar_of_ws (hws c hc)
    have hdf : ∀ pr ∈ SYMPTOM_VOCAB, detects ([] : List Char) pr.2 = false := by decide
    rw [extractSymptoms, hn]
    rw [List.filter_eq_nil_iff.mpr (fun pr hpr => by simp [hdf pr hpr])]
    rfl

/-- Witness for C7: the whitespace-only text of three spaces yields an empty
detected-symptom set. -/
theorem extraction_characterization_witness : extractSymptoms ("   ") = [] :=
  (extraction_characterization ("   ")).2 (by decide)

/-- C1: whenever the detected-symptom set of the input text satisfies a
critical override rule, the final risk level is High and override_applied is
true, for every probability, age and comorbidity list; and the override step
never lowers a level — the final level's rank is always at least the base
level's rank. -/
theorem critical_override_forces_high (p : ℚ) (age : Int) (com : List String) (text : String)
    (h : criticalRule (extractSymptoms text) = true) :
    (assess p age com text).risk_level = RiskLevel.high ∧
    (assess p age com text).override_applied = true ∧
    (∀ (q : ℚ) (a : Int) (c : List String) (t : String),
      levelRank (scoreLevel (riskScore q a c)) ≤ levelRank ((assess q a c t).risk_level)) := by
  refine ⟨?_, h, ?_⟩
  · show applyOverride (criticalRule (extractSymptoms text)) _ = RiskLevel.high
    rw [h]
    rfl
  · intro q a c t
    show levelRank (scoreLevel (riskScore q a c)) ≤
      levelRank (applyOverride (criticalRule (extractSymptoms t)) (scoreLevel (riskScore q a c)))
    cases hc : criticalRule (extractSymptoms t) with
    | false => exact le_refl _
    | true =>
      show levelRank _ ≤ levelRank RiskLevel.high
      cases scoreLevel (riskScore q a c) <;> simp [levelRank]

/-- Witness for C1: scenario B's text fires the chest-pain-plus-sweating rule
and the level is forced to High at a Low-band score. -/
theorem critical_override_forces_high_witness :
    criticalRule (extractSymptoms ("chest pain and sweating")) = true ∧
    (assess ((1:ℚ)/5) 30 [] ("chest pain and sweating")).risk_level = RiskLevel.high :=
  ⟨by decide,
   (critical_override_forces_high ((1:ℚ)/5) 30 [] ("chest pain and sweating") (by decide)).1⟩

/-- C2: the risk score equals probability*5 + age_factor + comorbidity_factor
exactly, with the documented factor rules, and scenario A (age 70, the single
comorbidity diabetes, probability 0.1, text mild headache) yields risk score
3.5 in the Moderate band with no override applied. -/
theorem risk_score_formula_and_scenarioA (p : ℚ) (age : Int) (com : List String) (text : String) :
    (assess p age com text).risk_score = p * 5 + ageFactor age + comorbidityFactor com ∧
    ageFactor 70 = 2 ∧
    comorbidityFactor ["diabetes"] = 1 ∧
    (assess ((1:ℚ)/10) 70 ["diabetes"] ("mild headache")).risk_score = 7/2 ∧
    (assess ((1:ℚ)/10) 70 ["diabetes"] ("mild headache")).risk_level = RiskLevel.moderate ∧
    (assess ((1:ℚ)/10) 70 ["diabetes"] ("mild headache")).override_applied = false := by
  have hs : riskScore ((1:ℚ)/10) 70 ["diabetes"] = 7/2 := by
    norm_num [riskScore, ageFactor, comorbidityFactor, List.dedup_cons_of_not_mem]
  refine ⟨rfl, by norm_num [ageFactor],
    by norm_num [comorbidityFactor, List.dedup_cons_of_not_mem], hs, ?_, by decide⟩
  show applyOverride (criticalRule (extractSymptoms ("mild headache")))
    (scoreLevel (riskScore ((1:ℚ)/10) 70 ["diabetes"])) = RiskLevel.moderate
  rw [hs, show criticalRule (extractSymptoms ("mild headache")) = false from by decide]
  show scoreLevel ((7:ℚ)/2) = RiskLevel.moderate
  rw [scoreLevel, if_neg (by norm_num), if_pos (by norm_num)]

/-- C6: holding age, comorbidities and text (hence detected symptoms) fixed,
the risk score is non-decreasing in the classifier probability over [0,1]. -/
theorem risk_score_monotone (p1 p2 : ℚ) (age : Int) (com : List String) (text : String)
    (h0 : 0 ≤ p1) (h12 : p1 ≤ p2) (h1 : p2 ≤ 1) :
    (assess p1 age com text).risk_score ≤ (assess p2 age com text).risk_score := by
  show riskScore p1 age com ≤ riskScore p2 age com
  unfold riskScore
  have h5 : p1 * 5 ≤ p2 * 5 := by nlinarith [h0, h12, h1]
  linarith

/-- Witness for C6: probabilities 0 and 1 at age 50 with no comorbidities. -/
theorem risk_score_monotone_witness :
    ((0:ℚ) ≤ 0 ∧ (0:ℚ) ≤ 1 ∧ (1:ℚ) ≤ 1) ∧
    (assess (0:ℚ) 50 [] ("cough")).risk_score ≤ (assess (1:ℚ) 50 [] ("cough")).risk_score :=
  ⟨⟨by norm_num, by norm_num, by norm_num⟩,
   risk_score_monotone 0 1 50 [] ("cough") (by norm_num) (by norm_num) (by norm_num)⟩

/-- C3 counterexample: a request with age 30 (in range), the enumerated
gender male, and the non-empty symptom_text of a single space is nevertheless
rejected — by the modelled validation, by the frontend submit guard (which
tests the trimmed text), and by the orchestrator, refuting the claim's
converse direction that every non-empty symptom_text passes. -/
theorem nonempty_whitespace_text_rejected :
    ({ age := some 30, gender := "male", comorbidities := [], symptom_text := " " } : AssessmentRequest).symptom_text ≠ "" ∧
    validate { age := some 30, gender := "male", comorbidities := [], symptom_text := " " } = false ∧
    jsGate ("30") ("male") (" ") = false ∧
    handleRequest (fun _ => some ((1:ℚ)/2))
      { age := some 30, gender := "male", comorbidities := [], symptom_text := " " } =
      (Except.error AssessError.validationError, []) := by
  refine ⟨by decide, by decide, by decide, ?_⟩
  rw [handleRequest, if_neg (by decide)]

/-- C3 (amended): validation accepts exactly the requests with age present
and in [0,120] (age 0 included), gender in the enumerated set, and a
symptom_text that is neither empty nor whitespace-only; whenever validation
fails, the orchestrator returns a validation error, the pipeline is never
invoked, and no log record is written. -/
theorem validation_gate (c : String → Option ℚ) (r : AssessmentRequest) :
    (validate r = true ↔
      (∃ a, r.age = some a ∧ 0 ≤ a ∧ a ≤ 120) ∧
      r.gender ∈ GENDERS ∧ isBlankStr r.symptom_text = false) ∧
    (validate r = false → handleRequest c r = (Except.error AssessError.validationError, [])) ∧
    validate { age := some 0, gender := "female", comorbidities := [], symptom_text := "cough" } = true := by
  refine ⟨?_, ?_, by decide⟩
  · obtain ⟨age?, g, co, s⟩ := r
    cases age? with
    | none => simp [validate]
    | some a => simp [validate, Bool.and_eq_true, decide_eq_true_eq, Bool.not_eq_true', and_assoc]
  · intro h
    rw [handleRequest, if_neg (by simp [h])]

/-- Witness for C3 (amended): age -1 is rejected, the pipeline is not
invoked and no log record is produced. -/
theorem validation_gate_witness :
    handleRequest (fun _ => some ((1:ℚ)/2))
      { age := some (-1), gender := "male", comorbidities := [], symptom_text := "headache" } =
      (Except.error AssessError.validationError, []) :=
  (validation_gate (fun _ => some ((1:ℚ)/2)) _).2.1 (by decide)

/-- C4: on a validated request, an unavailable classifier fails the whole
assessment with no default probability, no partial result and no log record;
and any successful result is complete — it comes from an actual classifier
probability, is the full assessment built from it, and is logged exactly
once. -/
theorem classifier_failure_atomic (c : String → Option ℚ) (r : AssessmentRequest)
    (hv : validate r = true) :
    (c (normalize r.symptom_text) = none →
      handleRequest c r = (Except.error AssessError.classifierUnavailable, [])) ∧
    (∀ res logs, handleRequest c r = (Except.ok res, logs) →
      ∃ p, c (normalize r.symptom_text) = some p ∧
        res = assess p (r.age.getD 0) r.comorbidities r.symptom_text ∧
        logs = [{ request := r, result := res }]) := by
  constructor
  · intro hc
    rw [handleRequest, if_pos hv, runPipeline, hc]
  · intro res logs h
    rw [handleRequest, if_pos hv, runPipeline] at h
    cases hc : c (normalize r.symptom_text) with
    | none => rw [hc] at h; exact absurd h (by simp)
    | some p =>
      rw [hc] at h
      simp only [Prod.mk.injEq, Except.ok.injEq] at h
      obtain ⟨h1, h2⟩ := h
      subst h1
      subst h2
      exact ⟨p, rfl, rfl, rfl⟩

/-- Witness for C4: a valid request against an always-unavailable classifier
produces the classifier-unavailable error and writes no log record. -/
theorem classifier_failure_atomic_witness :
    validate { age := some 30, gender := "male", comorbidities := [], symptom_text := "cough" } = true ∧
    handleRequest (fun _ => (none : Option ℚ))
      { age := some 30, gender := "male", comorbidities := [], symptom_text := "cough" } =
      (Except.error AssessError.classifierUnavailable, []) :=
  ⟨by decide,
   (classifier_failure_atomic (fun _ => none) _ (by decide)).1 rfl⟩

/-- C5: the orchestrator is a pure function — two runs on identical input
with the same classifier yield identical output — and symptom extraction is
a function of the text alone whose result is duplicate-free, so it denotes
a set independent of any detection order. -/
theorem pipeline_deterministic (c : String → Option ℚ) (r : AssessmentRequest) (t : String) :
    handleRequest c r = handleRequest c r ∧
    extractSymptoms t = extractSymptoms t ∧
    (extractSymptoms t).Nodup := by
  refine ⟨rfl, rfl, ?_⟩
  have hvoc : (SYMPTOM_VOCAB.map Prod.fst).Nodup := by decide
  have hsub := (List.filter_sublist (l := SYMPTOM_VOCAB)
    (p := fun pr => detects (normalize t).data pr.2)).map Prod.fst
  exact hvoc.sublist hsub

/-- C8: gender does not influence the assessment outcome — two requests that
are identical except for their gender field, both genders drawn from the
enumerated set, receive the same response (hence the same risk score and
risk level). -/
theorem gender_noninterference (c : String → Option ℚ) (r1 r2 : AssessmentRequest)
    (hg1 : r1.gender ∈ GENDERS) (hg2 : r2.gender ∈ GENDERS)
    (ha : r1.age = r2.age) (hco : r1.comorbidities = r2.comorbidities)
    (hs : r1.symptom_text = r2.symptom_text) :
    (handleRequest c r1).1 = (handleRequest c r2).1 := by
  obtain ⟨a1, g1, co1, s1⟩ := r1
  obtain ⟨a2, g2, co2, s2⟩ := r2
  simp only at ha hco hs hg1 hg2
  subst ha
  subst hco
  subst hs
  have e1 : decide (g1 ∈ GENDERS) = true := decide_eq_true hg1
  have e2 : decide (g2 ∈ GENDERS) = true := decide_eq_true hg2
  have hvv : validate ⟨a1, g1, co1, s1⟩ = validate ⟨a1, g2, co1, s1⟩ := by
    cases a1 with
    | none => rfl
    | some a => simp [validate, e1, e2]
  rw [handleRequest, handleRequest, hvv,
    show runPipeline c ⟨a1, g1, co1, s1⟩ = runPipeline c ⟨a1, g2, co1, s1⟩ from rfl]
  cases hval : validate ⟨a1, g2, co1, s1⟩ with
  | false => rfl
  | true =>
    rw [if_pos rfl, if_pos rfl]
    cases hcl : runPipeline c ⟨a1, g2, co1, s1⟩ with
    | none => rfl
    | some a => rfl

/-- Witness for C8: the same request submitted as male and as female gets the
same response. -/
theorem gender_noninterference_witness :
    ("male" ∈ GENDERS ∧ "female" ∈ GENDERS) ∧
    (handleRequest (fun _ => some ((1:ℚ)/2))
      { age := some 30, gender := "male", comorbidities := [], symptom_text := "cough" }).1 =
    (handleRequest (fun _ => some ((1:ℚ)/2))
      { age := some 30, gender := "female", comorbidities := [], symptom_text := "cough" }).1 :=
  ⟨⟨by decide, by decide⟩,
   gender_noninterference (fun _ => some ((1:ℚ)/2)) _ _ (by decide) (by decide) rfl rfl rfl⟩

/-- C9 counterexample: the risk_level string constructor is not one of
Low, Moderate, High, yet the bracket access of Results.jsx line 54 hits the
truthy Object.prototype.constructor member inherited by the object literal,
so the fallback of the or-expression does not fire: config is the inherited
member, not the Moderate configuration, and config.label is undefined rather
than the string Moderate Risk. -/
theorem prototype_key_skips_moderate_fallback :
    (("constructor" : String) ≠ "Low" ∧ ("constructor" : String) ≠ "Moderate" ∧
      ("constructor" : String) ≠ "High") ∧
    resultsConfig ("constructor") = JsLookup.inherited ∧
    resultsConfig ("constructor") ≠ JsLookup.ownConfig LEVEL_CONFIG_Moderate ∧
    configLabel (resultsConfig ("constructor")) ≠ some ("Moderate Risk") := by
  refine ⟨⟨by decide, by decide, by decide⟩, by decide, by decide, by decide⟩

/-- C9 (amended): for every risk_level string that is neither one of the
three configured levels nor the name of a property inherited from
Object.prototype, the lookup is undefined, the fallback fires, and the
Results page silently renders the Moderate configuration with label
Moderate Risk; the embedded rendering functions are total, so no failure or
error is surfaced for any risk_level string. -/
theorem unknown_level_uses_moderate_config (lvl : String)
    (h1 : lvl ≠ "Low") (h2 : lvl ≠ "Moderate") (h3 : lvl ≠ "High")
    (h4 : lvl ∉ OBJECT_PROTOTYPE_KEYS) :
    resultsConfig lvl = JsLookup.ownConfig LEVEL_CONFIG_Moderate ∧
    configLabel (resultsConfig lvl) = some ("Moderate Risk") := by
  have hacc : levelConfigAccess lvl = JsLookup.jsUndefined := by
    rw [levelConfigAccess, if_neg h1, if_neg h2, if_neg h3, if_neg h4]
  constructor
  · rw [resultsConfig, hacc]
  · rw [resultsConfig, hacc]
    rfl

/-- Witness for C9 (amended): the unknown level Critical, which names no
configured level and no Object.prototype property, renders with the Moderate
configuration. -/
theorem unknown_level_uses_moderate_config_witness :
    resultsConfig ("Critical") = JsLookup.ownConfig LEVEL_CONFIG_Moderate :=
  (unknown_level_uses_moderate_config ("Critical")
    (by decide) (by decide) (by decide) (by decide)).1

/-- C10: toggling a comorbidity chip changes only that item's membership —
the other selected items and their relative order are untouched, an absent
item is appended at the end, a present one is removed — and toggling the
same item twice restores the original selected set. -/
theorem toggle_comorbidity_membership (item : String) (prev : List String) :
    (toggleComorbidity item prev).filter (fun c => c ≠ item) = prev.filter (fun c => c ≠ item) ∧
    (item ∈ toggleComorbidity item prev ↔ item ∉ prev) ∧
    (item ∉ prev → toggleComorbidity item prev = prev ++ [item]) ∧
    (∀ x, x ∈ toggleComorbidity item (toggleComorbidity item prev) ↔ x ∈ prev) := by
  by_cases hp : item ∈ prev
  · rw [toggleComorbidity, if_pos hp]
    have hni : item ∉ prev.filter (fun c => c ≠ item) := by
      simp [List.mem_filter]
    refine ⟨?_, ?_, ?_, ?_⟩
    · rw [List.filter_filter]
      simp
    · simp [List.mem_filter, hp]
    · intro h
      exact absurd hp h
    · intro x
      rw [toggleComorbidity, if_neg hni]
      by_cases hx : x = item
      · subst hx
        simp [List.mem_append, List.mem_filter, hp]
      · simp [List.mem_append, List.mem_filter, hx, hp]
  · rw [toggleComorbidity, if_neg hp]
    have hin : item ∈ prev ++ [item] := by simp
    refine ⟨?_, ?_, fun _ => rfl, ?_⟩
    · rw [List.filter_append]
      simp
    · simp [hp]
    · intro x
      rw [toggleComorbidity, if_pos hin]
      by_cases hx : x = item
      · subst hx
        simp [List.mem_filter, hp]
      · simp [List.mem_filter, List.mem_append, hx]

/-- Witness for C10: toggling Diabetes on an empty selection appends it. -/
theorem toggle_comorbidity_membership_witness :
    ("Diabetes" : String) ∉ ([] : List String) ∧
    toggleComorbidity ("Diabetes") [] = [] ++ [("Diabetes" : String)] :=
  ⟨by decide, (toggle_comorbidity_membership ("Diabetes") []).2.2.1 (by decide)⟩

end Acuvia
